import Mathlib

/-!
Verification of the Polychromatic controller module (`pylib/controller.py`).

The controller is a request-routing and error-translation layer between a
webview UI and the OpenRazer daemon. This file gives a shallow embedding of
the module: Python values become the `PyValue` type, the observable actions
of a handler (log lines, error dialogs, UI function invocations, backend
calls) become a list of `Event`s, and a Python exception escaping a piece of
code becomes an `Option PyErr` alongside the events emitted before it was
raised. The backend client and the locale table are external collaborators
of the module and enter as parameters (`Backend`, `Locales`).
-/

/-! ## Python values

Python values that flow through the controller: `None`, booleans, integers,
strings, lists, dicts with string keys (every dict the controller builds or
subscripts uses string-literal keys), and type objects (the controller
compares a value against the builtin `str` type object in `_open_device`).
The containers are mutual inductives so that all functions below are
structurally recursive. -/

mutual

inductive PyValue where
  | none
  | bool (b : Bool)
  | int (n : Int)
  | str (s : String)
  | list (xs : PyList)
  | dict (xs : PyDict)
  | typeObj (name : String)
deriving DecidableEq

inductive PyList where
  | nil
  | cons (x : PyValue) (xs : PyList)
deriving DecidableEq

inductive PyDict where
  | nil
  | cons (k : String) (v : PyValue) (xs : PyDict)
deriving DecidableEq

end

/-- Build a `PyList` from a Lean list. -/
def toPyList : List PyValue → PyList
  | [] => PyList.nil
  | x :: xs => PyList.cons x (toPyList xs)

/-- A Python list literal. -/
def pyList (xs : List PyValue) : PyValue := PyValue.list (toPyList xs)

/-- Build a `PyDict` from a Lean association list. -/
def toPyDict : List (String × PyValue) → PyDict
  | [] => PyDict.nil
  | (k, v) :: xs => PyDict.cons k v (toPyDict xs)

/-- A Python dict literal (string keys, as everywhere in the controller). -/
def pyDict (xs : List (String × PyValue)) : PyValue := PyValue.dict (toPyDict xs)

/-- The underlying Lean list of a `PyList`. -/
def PyList.toList : PyList → List PyValue
  | PyList.nil => []
  | PyList.cons x xs => x :: PyList.toList xs

/-- The name of a Python value's type, as `type(v)` would identify it; the
controller compares `type(request) == str` in `_set_device_state` and
`_debug_matrix`. -/
def pyType : PyValue → String
  | PyValue.none => "NoneType"
  | PyValue.bool _ => "bool"
  | PyValue.int _ => "int"
  | PyValue.str _ => "str"
  | PyValue.list _ => "list"
  | PyValue.dict _ => "dict"
  | PyValue.typeObj _ => "type"

mutual

/-- Python `==`. `bool` is an `int` subtype in Python, so `False == 0` and
`True == 1`; values of unrelated types compare unequal (in particular a
string never equals the type object `str`, the comparison `data == str`
written in `_open_device`). Lists compare elementwise. Python compares two
dicts ignoring insertion order; the controller never compares one dict with
another (every `==` in the source has `None`, `False`, `True`, a string
literal or the `str` type object on one side), so the order-sensitive
elementwise comparison used here agrees with Python on every reachable
comparison. -/
def pyEq : PyValue → PyValue → Bool
  | PyValue.none, PyValue.none => true
  | PyValue.bool a, PyValue.bool b => a == b
  | PyValue.bool a, PyValue.int n => (if a then (1 : Int) else 0) == n
  | PyValue.int n, PyValue.bool b => n == (if b then (1 : Int) else 0)
  | PyValue.int m, PyValue.int n => m == n
  | PyValue.str s, PyValue.str t => s == t
  | PyValue.list xs, PyValue.list ys => pyEqList xs ys
  | PyValue.dict xs, PyValue.dict ys => pyEqDict xs ys
  | PyValue.typeObj s, PyValue.typeObj t => s == t
  | _, _ => false

def pyEqList : PyList → PyList → Bool
  | PyList.nil, PyList.nil => true
  | PyList.cons x xs, PyList.cons y ys => pyEq x y && pyEqList xs ys
  | _, _ => false

def pyEqDict : PyDict → PyDict → Bool
  | PyDict.nil, PyDict.nil => true
  | PyDict.cons k v xs, PyDict.cons k2 v2 ys => k == k2 && pyEq v v2 && pyEqDict xs ys
  | _, _ => false

end

mutual

/-- Python `str(v)`, used by the controller only to build log lines and the
text interpolated into dialog messages (`"...".format(x)` converts with
`str`). Container elements are rendered with quotes around strings, as
`repr` does inside containers; the exact text of a log line never drives a
branch in the controller. -/
def pyStr : PyValue → String
  | PyValue.none => "None"
  | PyValue.bool true => "True"
  | PyValue.bool false => "False"
  | PyValue.int n => toString n
  | PyValue.str s => s
  | PyValue.list xs => "[" ++ pyStrList xs ++ "]"
  | PyValue.dict xs => "\x7b" ++ pyStrDict xs ++ "\x7d"
  | PyValue.typeObj s => "<class '" ++ s ++ "'>"

def pyStrList : PyList → String
  | PyList.nil => ""
  | PyList.cons x PyList.nil => pyReprAtom x
  | PyList.cons x xs => pyReprAtom x ++ ", " ++ pyStrList xs

def pyStrDict : PyDict → String
  | PyDict.nil => ""
  | PyDict.cons k v PyDict.nil => "'" ++ k ++ "': " ++ pyReprAtom v
  | PyDict.cons k v xs => "'" ++ k ++ "': " ++ pyReprAtom v ++ ", " ++ pyStrDict xs

/-- Rendering of a container element: strings are quoted, other values
render as at top level. -/
def pyReprAtom : PyValue → String
  | PyValue.str s => "'" ++ s ++ "'"
  | PyValue.none => "None"
  | PyValue.bool true => "True"
  | PyValue.bool false => "False"
  | PyValue.int n => toString n
  | PyValue.list xs => "[" ++ pyStrList xs ++ "]"
  | PyValue.dict xs => "\x7b" ++ pyStrDict xs ++ "\x7d"
  | PyValue.typeObj s => "<class '" ++ s ++ "'>"

end

/-! ## Python exceptions and builtins used by the controller -/

/-- The exceptions a handler can raise: a missing dict key, an out-of-range
list index, a non-subscriptable or unhashable value, and a failed `int()`
conversion. All derive from `Exception` and are caught by the bare
`except Exception` arm of `parse_request`. -/
inductive PyErr where
  | keyError (key : String)
  | indexError (msg : String)
  | typeError (msg : String)
  | valueError (msg : String)
deriving DecidableEq

/-- Lists and dicts are unhashable in Python and cannot be dict keys. -/
def isUnhashable : PyValue → Bool
  | PyValue.list _ => true
  | PyValue.dict _ => true
  | _ => false

/-- First value in the dict whose key equals the subscript (dict keys here
are strings; the subscript may be any hashable value). -/
def dictFind : PyDict → PyValue → Option PyValue
  | PyDict.nil, _ => Option.none
  | PyDict.cons k v rest, key =>
      if pyEq (PyValue.str k) key then Option.some v else dictFind rest key

/-- Python subscription `v[key]`, covering the uses in the controller:
dict lookup with a (hashable) key, raising `KeyError` when absent, and list
indexing with an integer (or bool, an int subtype), honouring negative
indices and raising `IndexError` out of range. Subscripting any other value
raises `TypeError`. (Indexing a string, which Python also allows, is not
modelled: no controller path subscripts a string with an integer.) -/
def pySubscript (v : PyValue) (key : PyValue) : Except PyErr PyValue :=
  match v with
  | PyValue.dict xs =>
      if isUnhashable key then Except.error (PyErr.typeError "unhashable type") else
      match dictFind xs key with
      | Option.some w => Except.ok w
      | Option.none => Except.error (PyErr.keyError (pyStr key))
  | PyValue.list xs =>
      match key with
      | PyValue.int i => pyIndex (PyList.toList xs) i
      | PyValue.bool b => pyIndex (PyList.toList xs) (if b then 1 else 0)
      | _ => Except.error (PyErr.typeError "list indices must be integers or slices")
  | _ => Except.error (PyErr.typeError ("'" ++ pyType v ++ "' object is not subscriptable"))
where
  pyIndex (xs : List PyValue) (i : Int) : Except PyErr PyValue :=
    let j := if i < 0 then i + Int.ofNat xs.length else i
    if j < 0 then Except.error (PyErr.indexError "list index out of range")
    else
      match xs.get? j.toNat with
      | Option.some w => Except.ok w
      | Option.none => Except.error (PyErr.indexError "list index out of range")

/-- Python `int(v)`: identity on ints, 0/1 on bools, base-10 parse of a
string (surrounding whitespace ignored; `String.toInt?` models CPython's
base-10 parse), `ValueError` on an unparsable string and `TypeError` on any
other value. -/
def pyInt : PyValue → Except PyErr Int
  | PyValue.int n => Except.ok n
  | PyValue.bool b => Except.ok (if b then 1 else 0)
  | PyValue.str s =>
      match s.trim.toInt? with
      | Option.some n => Except.ok n
      | Option.none => Except.error (PyErr.valueError ("invalid literal for int() with base 10: '" ++ s ++ "'"))
  | v => Except.error (PyErr.typeError ("int() argument must be a string or a number, not '" ++ pyType v ++ "'"))

/-- Modelled from the spec: `common.get_exception_as_string` (the `common`
module is an external collaborator, not among the sources) renders the
caught exception and its stack trace as text for log lines and the generic
error dialog. -/
def get_exception_as_string : PyErr → String
  | PyErr.keyError k => "KeyError: '" ++ k ++ "'"
  | PyErr.indexError m => "IndexError: " ++ m
  | PyErr.typeError m => "TypeError: " ++ m
  | PyErr.valueError m => "ValueError: " ++ m

/-! ## Observable events -/

/-- Levels of the `dbg.stdout` logging helper (`dbg.debug`, `dbg.success`,
`dbg.action`, `dbg.warning`, `dbg.error`). -/
inductive LogLevel where
  | debug
  | success
  | action
  | warning
  | error
deriving DecidableEq

/-- One observable action of the controller: a log line, an error dialog
pushed to the UI (`_internal_error`), a JavaScript function invocation
(`run_function`), a view variable assignment (`send_view_variable`), a call
into the backend client, or opening a URL in the system browser. -/
inductive Event where
  | log (msg : String) (level : LogLevel)
  | dialog (title : String) (message : String) (style : String)
  | invoke (fn : String) (data : PyValue)
  | setVar (name : String) (value : PyValue)
  | getDeviceListCall
  | getDeviceCall (uid : PyValue)
  | setStateCall (uid : PyValue) (request : PyValue) (zone : PyValue) (colours : PyValue) (params : PyValue)
  | setColoursCall (uid : PyValue) (zone : PyValue) (colours : PyValue)
  | debugMatrixBackendCall (uid : Int) (row : Int) (col : Int)
  | troubleshootBackendCall
  | openUrl (url : String)
deriving DecidableEq

/-- Whether an event is a call into the backend client. -/
def isBackendCallEv : Event → Bool
  | Event.getDeviceListCall => true
  | Event.getDeviceCall _ => true
  | Event.setStateCall _ _ _ _ _ => true
  | Event.setColoursCall _ _ _ => true
  | Event.debugMatrixBackendCall _ _ _ => true
  | Event.troubleshootBackendCall => true
  | _ => false

/-- Whether an event is an error-dialog push to the UI. -/
def isDialogEv : Event → Bool
  | Event.dialog _ _ _ => true
  | _ => false

/-- Whether an event is any push to the UI (a dialog, a function
invocation or a view-variable assignment). -/
def isUiEv : Event → Bool
  | Event.dialog _ _ _ => true
  | Event.invoke _ _ => true
  | Event.setVar _ _ => true
  | _ => false

/-! ## External collaborators -/

/-- Modelled from the spec: a device reference from the backend's device
list (spec section 3): a unique id, an `available` flag and the list of
zone names. The backend module (`backends/openrazer`) is an external
collaborator and not among this repository's sources; the controller reads
exactly the `uid`, `available` and `zones` entries of each device. -/
structure Device where
  uid : PyValue
  available : PyValue
  zones : List PyValue
deriving DecidableEq

/-- The dict the backend returns for one device, as cached into the view. -/
def devicePy (d : Device) : PyValue :=
  pyDict [("uid", d.uid), ("available", d.available), ("zones", pyList d.zones)]

/-- The device list as a Python value, for the `CACHE_DEVICES` variable. -/
def deviceListPy (ds : List Device) : PyValue := pyList (ds.map devicePy)

/-- Modelled from the spec: the Backend Client interface (spec section 6).
Its operations return sentinel-typed values (`None` for a vanished device,
`False` for an invalid request, a string for a daemon exception, `True` or
structured data for success) and are expected never to raise; the
`troubleshoot` operation may raise, which the controller guards with its
own `try`. The functions are parameters: theorems quantify over them. -/
structure Backend where
  device_list : List Device
  get_device : PyValue → PyValue
  set_device_state : PyValue → PyValue → PyValue → PyValue → PyValue → PyValue
  set_device_colours : PyValue → PyValue → PyValue → PyValue
  debug_matrix : Int → Int → Int → PyValue
  troubleshoot : Except PyErr PyValue

/-- Modelled from the spec: the entries of `locales.LOCALES` the controller
reads (the `locales` module is an external collaborator, not among the
sources). Each field is the translated text for one key. -/
structure Locales where
  error_generic_title : String
  error_generic_text : String
  error_device_gone_title : String
  error_device_gone_text : String
  error_bad_request_title : String
  error_bad_request_text : String
  error_backend_title : String
  error_backend_text : String
  troubleshoot : String
  troubleshoot_cannot_run : String

/-! ## The controller -/

/-- Character-level embedding of `reason.replace("\n", "<br>")` in
`_internal_error`: the pattern is the single character `'\n'`, so the
replacement acts on each character independently. -/
def replNl : List Char → List Char
  | [] => []
  | c :: cs => if c = '\n' then '<' :: 'b' :: 'r' :: '>' :: replNl cs else c :: replNl cs

/-- String form of `replNl`. -/
def replaceNewlines (s : String) : String := String.mk (replNl s.data)

/-- `_internal_error(title, reason, style)` pushes one `open_dialog(...)`
invocation to the webview, with newlines of the reason replaced by HTML
line breaks; the embedding records the dialog's arguments. -/
def internal_error (title : String) (reason : String) (style : String) : Event :=
  Event.dialog title (replaceNewlines reason) style

/-- `run_function(function, data={})` pushes one JavaScript call
`function(data)` to the webview. -/
def run_function (fn : String) (data : PyValue := pyDict []) : Event :=
  Event.invoke fn data

/-- A handler's outcome: the events it emitted, and the exception that
escaped it, if one did (the events before the raise still happened). -/
abbrev HRes := List Event × Option PyErr

/-- Handler `_update_device_list`: re-fetches the device list into the
`CACHE_DEVICES` view variable, then invokes the JavaScript callback named
by `data["callback"]`. -/
def _update_device_list (B : Backend) (_L : Locales) (data : PyValue) : HRes :=
  let evs := [Event.getDeviceListCall, Event.setVar "CACHE_DEVICES" (deviceListPy B.device_list)]
  match pySubscript data (PyValue.str "callback") with
  | Except.error e => (evs, Option.some e)
  | Except.ok cb => (evs ++ [run_function (pyStr cb)], Option.none)

/-- Handler `_open_device`: fetches one device by `uid` (the source rebinds
`data` to the backend's return). `data == None` shows the overview;
`data == str` — written in the source with the builtin type object `str` on
the right — would show the device-error page; anything else renders the
device. -/
def _open_device (B : Backend) (_L : Locales) (data : PyValue) : HRes :=
  match pySubscript data (PyValue.str "uid") with
  | Except.error e => ([], Option.some e)
  | Except.ok uid =>
    let d := B.get_device uid
    if pyEq d PyValue.none then
      ([Event.getDeviceCall uid, run_function "open_device_overview"], Option.none)
    else if pyEq d (PyValue.typeObj "str") then
      ([Event.getDeviceCall uid,
        run_function "_open_device_error" (pyDict [("code", PyValue.int (-2)), ("exception", d)])],
       Option.none)
    else
      ([Event.getDeviceCall uid, run_function "_open_device" d], Option.none)

/-- The `effect_params` dict literal of `_apply_to_all`: default parameter
per effect name. -/
def effect_params : PyValue :=
  pyDict [("spectrum", PyValue.none), ("wave", PyValue.int 1), ("reactive", PyValue.int 2),
          ("breath_single", PyValue.none), ("static", PyValue.none)]

/-- The body of the inner zone loop of `_apply_to_all`: for `effect`, look
up the default parameter (a `KeyError` here escapes the handler) and call
`set_device_state` with the effect name, no colour and `[param]`; for
`brightness`, call it with request `"brightness"` and `[value]`; for
`colour`, call `set_device_colours` with `[value]`; any other type falls
through the `if`/`elif` chain doing nothing. -/
def apply_zone (rtype rvalue uid zone : PyValue) : Except PyErr (List Event) :=
  if pyEq rtype (PyValue.str "effect") then
    match pySubscript effect_params rvalue with
    | Except.error e => Except.error e
    | Except.ok p =>
        Except.ok [Event.setStateCall uid rvalue zone PyValue.none (pyList [p])]
  else if pyEq rtype (PyValue.str "brightness") then
    Except.ok [Event.setStateCall uid (PyValue.str "brightness") zone PyValue.none (pyList [rvalue])]
  else if pyEq rtype (PyValue.str "colour") then
    Except.ok [Event.setColoursCall uid zone (pyList [rvalue])]
  else
    Except.ok []

/-- The zone loop of `_apply_to_all` over one device's zones. -/
def apply_zones (rtype rvalue uid : PyValue) : List PyValue → HRes
  | [] => ([], Option.none)
  | z :: zs =>
    match apply_zone rtype rvalue uid z with
    | Except.error e => ([], Option.some e)
    | Except.ok evs =>
        let r := apply_zones rtype rvalue uid zs
        (evs ++ r.1, r.2)

/-- The device loop of `_apply_to_all`: devices with `available == False`
are skipped (`continue`); the zone loop runs for every other device. -/
def apply_devices (rtype rvalue : PyValue) : List Device → HRes
  | [] => ([], Option.none)
  | d :: ds =>
    if pyEq d.available (PyValue.bool false) then apply_devices rtype rvalue ds
    else
      let r := apply_zones rtype rvalue d.uid d.zones
      match r.2 with
      | Option.some e => (r.1, Option.some e)
      | Option.none =>
          let rest := apply_devices rtype rvalue ds
          (r.1 ++ rest.1, rest.2)

/-- Handler `_apply_to_all`: reads `type` and `value` from the payload,
fetches the device list and runs the per-device, per-zone loop. -/
def _apply_to_all (B : Backend) (_L : Locales) (data : PyValue) : HRes :=
  match pySubscript data (PyValue.str "type") with
  | Except.error e => ([], Option.some e)
  | Except.ok rtype =>
  match pySubscript data (PyValue.str "value") with
  | Except.error e => ([], Option.some e)
  | Except.ok rvalue =>
    let r := apply_devices rtype rvalue B.device_list
    (Event.getDeviceListCall :: r.1, r.2)

/-- The result-classification block of `_set_device_state` (the
`if`/`elif` chain on the backend's return, lines 243 to 260): `None` is
the device-gone warning, `False` the bad-request warning, a string the
serious daemon-exception dialog (the message wrapped in a `<pre>` block),
`True` a success log line, and — the chain having no final `else` —
anything else does nothing further. `pre` holds the events already
emitted (the processing log line and the backend call). -/
def sds_classify (L : Locales) (pre : List Event) (request : PyValue) : List Event :=
  if pyEq request PyValue.none then
    pre ++ [Event.log "Device not found in backend" LogLevel.warning,
            internal_error L.error_device_gone_title L.error_device_gone_text "warning"]
  else if pyEq request (PyValue.bool false) then
    pre ++ [Event.log "Invalid request." LogLevel.warning,
            internal_error L.error_bad_request_title L.error_bad_request_text "warning"]
  else if pyType request == "str" then
    pre ++ [internal_error L.error_backend_title
              (L.error_backend_text ++ "<pre>" ++ pyStr request ++ "</pre>") "serious",
            Event.log (pyStr request) LogLevel.error]
  else if pyEq request (PyValue.bool true) then
    pre ++ [Event.log "Successfully executed request" LogLevel.success]
  else
    pre

/-- Handler `_set_device_state`: coerces `uid` to an integer, forwards the
request to the backend's `set_device_state` and classifies the return
through `sds_classify`. -/
def _set_device_state (B : Backend) (L : Locales) (data : PyValue) : HRes :=
  match pySubscript data (PyValue.str "uid") with
  | Except.error e => ([], Option.some e)
  | Except.ok uidv =>
  match pyInt uidv with
  | Except.error e => ([], Option.some e)
  | Except.ok uid =>
  match pySubscript data (PyValue.str "backend") with
  | Except.error e => ([], Option.some e)
  | Except.ok backend =>
  match pySubscript data (PyValue.str "backend_request") with
  | Except.error e => ([], Option.some e)
  | Except.ok backend_request =>
  match pySubscript data (PyValue.str "zone") with
  | Except.error e => ([], Option.some e)
  | Except.ok zone =>
  match pySubscript data (PyValue.str "colour_hex") with
  | Except.error e => ([], Option.some e)
  | Except.ok colour_hex =>
  match pySubscript data (PyValue.str "params") with
  | Except.error e => ([], Option.some e)
  | Except.ok params =>
    let processing :=
      Event.log ("Processing request '" ++ pyStr backend_request ++ "' for device "
                 ++ toString uid ++ " in backend '" ++ pyStr backend ++ "'...") LogLevel.action
    let callEv := Event.setStateCall (PyValue.int uid) backend_request zone colour_hex params
    let request := B.set_device_state (PyValue.int uid) backend_request zone colour_hex params
    (sds_classify L [processing, callEv] request, Option.none)

/-- The result-classification block of `_debug_matrix` (lines 280 to 291):
three branches only — `None` is the device-gone warning, a string the
serious daemon-exception dialog, `True` a success log of the coordinates
(the uncoerced `row` and `column` payload values). There is no
`request == False` branch, so a `False` return adds nothing. `callEv` is
the backend call already made. -/
def dm_classify (L : Locales) (callEv : Event) (row column : PyValue)
    (request : PyValue) : List Event :=
  if pyEq request PyValue.none then
    [callEv, internal_error L.error_device_gone_title L.error_device_gone_text "warning"]
  else if pyType request == "str" then
    [callEv,
     internal_error L.error_backend_title
       (L.error_backend_text ++ "<pre>" ++ pyStr request ++ "</pre>") "serious",
     Event.log (pyStr request) LogLevel.error]
  else if pyEq request (PyValue.bool true) then
    [callEv, Event.log ("OK: [" ++ pyStr row ++ "," ++ pyStr column ++ "]") LogLevel.success]
  else
    [callEv]

/-- Handler `_debug_matrix`: coerces `uid`, row and column to integers,
forwards to the backend's `debug_matrix` and classifies the return through
`dm_classify`. -/
def _debug_matrix (B : Backend) (L : Locales) (data : PyValue) : HRes :=
  match pySubscript data (PyValue.str "uid") with
  | Except.error e => ([], Option.some e)
  | Except.ok uidv =>
  match pyInt uidv with
  | Except.error e => ([], Option.some e)
  | Except.ok uid =>
  match pySubscript data (PyValue.str "backend") with
  | Except.error e => ([], Option.some e)
  | Except.ok _backend =>
  match pySubscript data (PyValue.str "position") with
  | Except.error e => ([], Option.some e)
  | Except.ok position =>
  match pySubscript position (PyValue.int 0) with
  | Except.error e => ([], Option.some e)
  | Except.ok row =>
  match pySubscript position (PyValue.int 1) with
  | Except.error e => ([], Option.some e)
  | Except.ok column =>
  match pyInt row with
  | Except.error e => ([], Option.some e)
  | Except.ok r =>
  match pyInt column with
  | Except.error e => ([], Option.some e)
  | Except.ok c =>
    let callEv := Event.debugMatrixBackendCall uid r c
    let request := B.debug_matrix uid r c
    (dm_classify L callEv row column request, Option.none)

/-- Handler `_open_help`: opens the documentation URL in the default
browser; no backend interaction. -/
def _open_help (_B : Backend) (_L : Locales) (_data : PyValue) : HRes :=
  ([Event.openUrl "https://polychromatic.app/docs"], Option.none)

/-- Handler `_troubleshoot_openrazer`: runs the backend's troubleshooter
and forwards the results to the UI; a bare `except` turns any failure of
the call into a log line and a troubleshooting-failed dialog, so nothing
escapes this handler. -/
def _troubleshoot_openrazer (B : Backend) (L : Locales) (_data : PyValue) : HRes :=
  match B.troubleshoot with
  | Except.ok results =>
      ([Event.log "Running troubleshooter for OpenRazer..." LogLevel.warning,
        Event.troubleshootBackendCall,
        run_function "_show_troubleshoot_results" results,
        Event.log "Troubleshooting finished." LogLevel.success], Option.none)
  | Except.error _ =>
      ([Event.log "Running troubleshooter for OpenRazer..." LogLevel.warning,
        Event.troubleshootBackendCall,
        Event.log "Troubleshooting encountered an exception." LogLevel.error,
        internal_error L.troubleshoot L.troubleshoot_cannot_run "serious"], Option.none)

/-- The `requests` dict literal of `parse_request`: request name to
handler. -/
def requests_table : List (String × (Backend → Locales → PyValue → HRes)) :=
  [("update_device_list", _update_device_list),
   ("open_device", _open_device),
   ("apply_to_all", _apply_to_all),
   ("set_device_state", _set_device_state),
   ("debug_matrix", _debug_matrix),
   ("open_help", _open_help),
   ("troubleshoot_openrazer", _troubleshoot_openrazer)]

/-- The events of the `except Exception` arm of `parse_request`: two error
log lines (the failed request with its payload, and the exception's trace)
and one generic error dialog carrying the trace in a `<code>` block. -/
def exception_events (L : Locales) (request : String) (data : PyValue) (e : PyErr) : List Event :=
  [Event.log ("Failed to execute request: " ++ request ++ " with data: " ++ pyStr data) LogLevel.error,
   Event.log (get_exception_as_string e) LogLevel.error,
   internal_error L.error_generic_title
     (L.error_generic_text ++ "<br><br><code>" ++ get_exception_as_string e ++ "</code>") "serious"]

/-- The events of the `except KeyError` arm of `parse_request` (lines
58 to 61 of the source): an unknown-request log line and a hard-coded
"Internal Error ... is not implemented" dialog. The arm guards the
construction of the `requests` dict literal, which cannot raise `KeyError`,
so this code is unreachable: the lookup `requests[request]` that can raise
sits in the second `try`, whose `except Exception` arm produces
`exception_events` instead. -/
def unknown_request_events (request : String) (data : PyValue) : List Event :=
  [Event.log ("Unknown Request: " ++ request ++ " with data: " ++ pyStr data) LogLevel.error,
   internal_error "Internal Error" ("<code>" ++ request ++ "</code> is not implemented.") "serious"]

/-- `parse_request(request, data)`: looks the request name up in the
`requests` dict and runs the handler inside `try ... except Exception`.
An unknown name makes `requests[request]` raise `KeyError`, which that same
`except Exception` arm catches; a known handler's escaped exception is
caught there too. Either way the function returns normally: the total
events are the handler's followed, on failure, by `exception_events`. -/
def parse_request (B : Backend) (L : Locales) (request : String) (data : PyValue) : List Event :=
  match requests_table.lookup request with
  | Option.none => exception_events L request data (PyErr.keyError request)
  | Option.some h =>
    match h B L data with
    | (evs, Option.none) => evs
    | (evs, Option.some e) => evs ++ exception_events L request data e

/-! ## Concrete fixtures for witnesses and counterexamples -/

/-- A concrete locale table for closed evaluations. -/
def L0 : Locales :=
  { error_generic_title := "Oops, something went wrong"
    error_generic_text := "The application encountered a problem."
    error_device_gone_title := "Device Unavailable"
    error_device_gone_text := "The device is no longer connected."
    error_bad_request_title := "Bad Request"
    error_bad_request_text := "The daemon rejected the request."
    error_backend_title := "Daemon Error"
    error_backend_text := "The daemon reported an exception:"
    troubleshoot := "Troubleshooter"
    troubleshoot_cannot_run := "The troubleshooter could not run." }

/-- A backend whose every operation returns the same value, for closed
evaluations. -/
def constBackend (r : PyValue) : Backend :=
  { device_list := []
    get_device := fun _ => r
    set_device_state := fun _ _ _ _ _ => r
    set_device_colours := fun _ _ _ => r
    debug_matrix := fun _ _ _ => r
    troubleshoot := Except.ok r }

/-- A backend with a two-device list (one available with two zones, one
unavailable with one zone), for closed evaluations of `apply_to_all`. -/
def B2 : Backend :=
  { constBackend (PyValue.bool true) with
    device_list :=
      [{ uid := PyValue.int 0, available := PyValue.bool true,
         zones := [PyValue.str "main", PyValue.str "logo"] },
       { uid := PyValue.int 1, available := PyValue.bool false,
         zones := [PyValue.str "main"] }] }

/-- A well-formed `set_device_state` payload. -/
def sdsPayload (uid : Int) (bk rq z ch pm : PyValue) : PyValue :=
  pyDict [("uid", PyValue.int uid), ("backend", bk), ("backend_request", rq),
          ("zone", z), ("colour_hex", ch), ("params", pm)]

/-- A well-formed `debug_matrix` payload. -/
def dmPayload (uid : Int) (bk : PyValue) (row col : PyValue) : PyValue :=
  pyDict [("uid", PyValue.int uid), ("backend", bk), ("position", pyList [row, col])]

/-! ## Helper lemmas -/

theorem replNl_append (a b : List Char) : replNl (a ++ b) = replNl a ++ replNl b := by
  induction a with
  | nil => rfl
  | cons c cs ih =>
    simp only [List.cons_append, replNl]
    by_cases h : c = '\n' <;> simp [h, ih]

theorem replNl_id (l : List Char) (h : ∀ c ∈ l, c ≠ '\n') : replNl l = l := by
  induction l with
  | nil => rfl
  | cons c cs ih =>
    simp only [replNl]
    rw [if_neg (h c (by simp)), ih (fun c hc => h c (by simp [hc]))]

theorem replaceNewlines_append (a b : String) :
    replaceNewlines (a ++ b) = replaceNewlines a ++ replaceNewlines b := by
  have hdata : (a ++ b).data = a.data ++ b.data := rfl
  simp only [replaceNewlines, hdata, replNl_append]
  rfl

theorem replaceNewlines_id (s : String) (h : ∀ c ∈ s.data, c ≠ '\n') :
    replaceNewlines s = s := by
  simp only [replaceNewlines, replNl_id s.data h]

theorem apply_zones_brightness (v uid : PyValue) (zs : List PyValue) :
    apply_zones (PyValue.str "brightness") v uid zs =
      (zs.map (fun z =>
        Event.setStateCall uid (PyValue.str "brightness") z PyValue.none (pyList [v])),
       Option.none) := by
  induction zs with
  | nil => rfl
  | cons z zs ih =>
    have h1 : pyEq (PyValue.str "brightness") (PyValue.str "effect") = false := rfl
    have h2 : pyEq (PyValue.str "brightness") (PyValue.str "brightness") = true := rfl
    simp [apply_zones, apply_zone, h1, h2, ih]

theorem apply_zones_effect (v p uid : PyValue)
    (hp : pySubscript effect_params v = Except.ok p) (zs : List PyValue) :
    apply_zones (PyValue.str "effect") v uid zs =
      (zs.map (fun z => Event.setStateCall uid v z PyValue.none (pyList [p])),
       Option.none) := by
  induction zs with
  | nil => rfl
  | cons z zs ih =>
    have h1 : pyEq (PyValue.str "effect") (PyValue.str "effect") = true := rfl
    simp [apply_zones, apply_zone, h1, hp, ih]

theorem apply_zones_effect_miss (v uid : PyValue) (e : PyErr)
    (hp : pySubscript effect_params v = Except.error e) (z : PyValue) (zs : List PyValue) :
    apply_zones (PyValue.str "effect") v uid (z :: zs) = ([], Option.some e) := by
  have h1 : pyEq (PyValue.str "effect") (PyValue.str "effect") = true := rfl
  simp [apply_zones, apply_zone, h1, hp]

theorem apply_zones_other (rtype v uid : PyValue)
    (h1 : pyEq rtype (PyValue.str "effect") = false)
    (h2 : pyEq rtype (PyValue.str "brightness") = false)
    (h3 : pyEq rtype (PyValue.str "colour") = false) (zs : List PyValue) :
    apply_zones rtype v uid zs = ([], Option.none) := by
  induction zs with
  | nil => rfl
  | cons z zs ih => simp [apply_zones, apply_zone, h1, h2, h3, ih]

theorem apply_devices_ok (rtype v : PyValue) (f : Device → List Event)
    (hf : ∀ d : Device, apply_zones rtype v d.uid d.zones = (f d, Option.none))
    (ds : List Device) :
    apply_devices rtype v ds =
      ((ds.filter (fun d => !(pyEq d.available (PyValue.bool false)))).flatMap f,
       Option.none) := by
  induction ds with
  | nil => rfl
  | cons d ds ih =>
    by_cases h : pyEq d.available (PyValue.bool false)
    · simp [apply_devices, h, ih, List.filter_cons]
    · simp [apply_devices, h, hf d, ih, List.filter_cons]

theorem filter_avail_of_boolean (ds : List Device)
    (h : ∀ d ∈ ds, d.available = PyValue.bool true ∨ d.available = PyValue.bool false) :
    ds.filter (fun d => !(pyEq d.available (PyValue.bool false)))
      = ds.filter (fun d => d.available == PyValue.bool true) := by
  induction ds with
  | nil => rfl
  | cons d ds ih =>
    have hd := h d (by simp)
    have hrest := ih (fun x hx => h x (by simp [hx]))
    rcases hd with hd | hd <;>
      simp [List.filter_cons, hd, pyEq, hrest]

theorem apply_devices_other (rtype v : PyValue)
    (h1 : pyEq rtype (PyValue.str "effect") = false)
    (h2 : pyEq rtype (PyValue.str "brightness") = false)
    (h3 : pyEq rtype (PyValue.str "colour") = false) (ds : List Device) :
    apply_devices rtype v ds = ([], Option.none) := by
  induction ds with
  | nil => rfl
  | cons d ds ih =>
    by_cases h : pyEq d.available (PyValue.bool false)
    · simp [apply_devices, h, ih]
    · simp [apply_devices, h, ih, apply_zones_other rtype v d.uid h1 h2 h3 d.zones]

theorem effect_params_wave : pySubscript effect_params (PyValue.str "wave") = Except.ok (PyValue.int 1) := rfl

theorem effect_params_spectrum :
    pySubscript effect_params (PyValue.str "spectrum") = Except.ok PyValue.none := rfl

theorem effect_params_miss (v : String)
    (h : v ∉ ["spectrum", "wave", "reactive", "breath_single", "static"]) :
    pySubscript effect_params (PyValue.str v) = Except.error (PyErr.keyError v) := by
  simp only [List.mem_cons, not_or] at h
  obtain ⟨h1, h2, h3, h4, h5, -⟩ := h
  simp [pySubscript, effect_params, pyDict, toPyDict, dictFind, isUnhashable, pyEq, pyStr,
    Ne.symm h1, Ne.symm h2, Ne.symm h3, Ne.symm h4, Ne.symm h5]

theorem sds_classify_str (L : Locales) (pre : List Event) (s : String) :
    sds_classify L pre (PyValue.str s) =
      pre ++ [Event.dialog L.error_backend_title
                (replaceNewlines (L.error_backend_text ++ "<pre>" ++ s ++ "</pre>")) "serious",
              Event.log s LogLevel.error] := rfl

/-! ## The claims -/

/-- C1: the claim says an unknown request name logs the unknown request and
raises the generic "not implemented" error dialog. In the source the
`except KeyError` arm carrying exactly that behaviour guards the `requests`
dict *literal*, which cannot raise, so it is dead code: the lookup
`requests[request]` raises `KeyError` inside the second `try`, whose
`except Exception` arm logs a failure trace and raises the *generic
handler-failure* dialog instead. This theorem evaluates the code at an
unknown name: the output is `exception_events` (one generic dialog, no
backend call, normal return), and differs from the dead branch's
`unknown_request_events`. -/
theorem C1_unknown_request_generic_path :
    parse_request (constBackend (PyValue.bool true)) L0 "fake_request" (pyDict []) =
      exception_events L0 "fake_request" (pyDict []) (PyErr.keyError "fake_request")
    ∧ (parse_request (constBackend (PyValue.bool true)) L0 "fake_request" (pyDict [])).countP
        isBackendCallEv = 0
    ∧ (parse_request (constBackend (PyValue.bool true)) L0 "fake_request" (pyDict [])).countP
        isDialogEv = 1
    ∧ parse_request (constBackend (PyValue.bool true)) L0 "fake_request" (pyDict [])
        ≠ unknown_request_events "fake_request" (pyDict []) := by
  refine ⟨rfl, rfl, rfl, ?_⟩
  decide

/-- C2: the claim says `open_device` with a string return invokes the
device-error UI function with code -2. In the source the guard is
`elif data == str:` — a comparison with the builtin *type object* `str`,
false for every string — so a string return falls to the `else` branch and
is rendered with the ordinary `_open_device` UI function; the null branch
works as claimed. This theorem evaluates both cases. -/
theorem C2_open_device_string_renders :
    _open_device (constBackend (PyValue.str "Test exception")) L0
        (pyDict [("uid", PyValue.int 0)]) =
      ([Event.getDeviceCall (PyValue.int 0),
        Event.invoke "_open_device" (PyValue.str "Test exception")], Option.none)
    ∧ _open_device (constBackend PyValue.none) L0 (pyDict [("uid", PyValue.int 0)]) =
      ([Event.getDeviceCall (PyValue.int 0),
        Event.invoke "open_device_overview" (pyDict [])], Option.none) :=
  ⟨rfl, rfl⟩

/-- C3 (counterexample): the claim says a `False` return from the
matrix-debug call produces the "bad request" warning dialog. The
classification in `_debug_matrix` has no `request == False` branch: with a
backend returning `False`, the handler emits the backend call and nothing
else — no dialog at all. -/
theorem C3_false_return_no_dialog :
    _debug_matrix (constBackend (PyValue.bool false)) L0
        (dmPayload 1 (PyValue.str "openrazer") (PyValue.int 0) (PyValue.int 0)) =
      ([Event.debugMatrixBackendCall 1 0 0], Option.none)
    ∧ (parse_request (constBackend (PyValue.bool false)) L0 "debug_matrix"
        (dmPayload 1 (PyValue.str "openrazer") (PyValue.int 0) (PyValue.int 0))).countP
        isDialogEv = 0 :=
  ⟨rfl, rfl⟩

/-- C3 (amended): `debug_matrix` classifies the backend return three ways,
not four: `None` produces the device-gone warning dialog, a string the
serious daemon-exception dialog, `True` only a log of the coordinates with
no UI push — and `False` (invalid request) produces no warning dialog and
no log, the bad-request branch being absent. -/
theorem C3_debug_matrix_three_way (B : Backend) (L : Locales) (u : Int) (bk : PyValue)
    (r c : Int) :
    (B.debug_matrix u r c = PyValue.none →
      _debug_matrix B L (dmPayload u bk (PyValue.int r) (PyValue.int c)) =
        ([Event.debugMatrixBackendCall u r c,
          internal_error L.error_device_gone_title L.error_device_gone_text "warning"],
         Option.none))
    ∧ (∀ s : String, B.debug_matrix u r c = PyValue.str s →
      _debug_matrix B L (dmPayload u bk (PyValue.int r) (PyValue.int c)) =
        ([Event.debugMatrixBackendCall u r c,
          internal_error L.error_backend_title
            (L.error_backend_text ++ "<pre>" ++ s ++ "</pre>") "serious",
          Event.log s LogLevel.error], Option.none))
    ∧ (B.debug_matrix u r c = PyValue.bool true →
      _debug_matrix B L (dmPayload u bk (PyValue.int r) (PyValue.int c)) =
        ([Event.debugMatrixBackendCall u r c,
          Event.log ("OK: [" ++ toString r ++ "," ++ toString c ++ "]") LogLevel.success],
         Option.none))
    ∧ (B.debug_matrix u r c = PyValue.bool false →
      _debug_matrix B L (dmPayload u bk (PyValue.int r) (PyValue.int c)) =
        ([Event.debugMatrixBackendCall u r c], Option.none)) := by
  have hx : _debug_matrix B L (dmPayload u bk (PyValue.int r) (PyValue.int c))
      = (dm_classify L (Event.debugMatrixBackendCall u r c) (PyValue.int r) (PyValue.int c)
          (B.debug_matrix u r c), Option.none) := rfl
  refine ⟨fun h => ?_, fun s h => ?_, fun h => ?_, fun h => ?_⟩ <;> rw [hx, h] <;> rfl

/-- C3 (witness): the four branches of the amended classification,
evaluated at a concrete payload against four concrete backends. -/
theorem C3_debug_matrix_three_way_witness :
    (_debug_matrix (constBackend PyValue.none) L0
        (dmPayload 1 (PyValue.str "openrazer") (PyValue.int 2) (PyValue.int 3)) =
      ([Event.debugMatrixBackendCall 1 2 3,
        internal_error L0.error_device_gone_title L0.error_device_gone_text "warning"],
       Option.none))
    ∧ (_debug_matrix (constBackend (PyValue.str "boom")) L0
        (dmPayload 1 (PyValue.str "openrazer") (PyValue.int 2) (PyValue.int 3)) =
      ([Event.debugMatrixBackendCall 1 2 3,
        internal_error L0.error_backend_title
          (L0.error_backend_text ++ "<pre>" ++ "boom" ++ "</pre>") "serious",
        Event.log "boom" LogLevel.error], Option.none))
    ∧ (_debug_matrix (constBackend (PyValue.bool true)) L0
        (dmPayload 1 (PyValue.str "openrazer") (PyValue.int 2) (PyValue.int 3)) =
      ([Event.debugMatrixBackendCall 1 2 3,
        Event.log ("OK: [" ++ toString (2 : Int) ++ "," ++ toString (3 : Int) ++ "]")
          LogLevel.success], Option.none))
    ∧ (_debug_matrix (constBackend (PyValue.bool false)) L0
        (dmPayload 1 (PyValue.str "openrazer") (PyValue.int 2) (PyValue.int 3)) =
      ([Event.debugMatrixBackendCall 1 2 3], Option.none)) :=
  ⟨(C3_debug_matrix_three_way (constBackend PyValue.none) L0 1 (PyValue.str "openrazer") 2 3).1
      rfl,
   ((C3_debug_matrix_three_way (constBackend (PyValue.str "boom")) L0 1 (PyValue.str "openrazer")
      2 3).2.1 "boom" rfl),
   ((C3_debug_matrix_three_way (constBackend (PyValue.bool true)) L0 1 (PyValue.str "openrazer")
      2 3).2.2.1 rfl),
   ((C3_debug_matrix_three_way (constBackend (PyValue.bool false)) L0 1 (PyValue.str "openrazer")
      2 3).2.2.2 rfl)⟩

/-- C4: for every handler in the dispatch table and every payload, an
exception escaping the handler is caught by `parse_request`: the function
returns normally with the handler's events followed by the
`except Exception` arm's events, and that arm produces exactly one
(generic) error dialog for the failure. -/
theorem C4_handler_exception_caught (B : Backend) (L : Locales) (name : String)
    (data : PyValue) (h : Backend → Locales → PyValue → HRes) (evs : List Event) (e : PyErr)
    (hl : requests_table.lookup name = Option.some h)
    (hrun : h B L data = (evs, Option.some e)) :
    parse_request B L name data = evs ++ exception_events L name data e
    ∧ (exception_events L name data e).countP isDialogEv = 1 := by
  constructor
  · simp [parse_request, hl, hrun]
  · rfl

/-- C4 (witness): `set_device_state` with an empty payload raises
`KeyError` on `data["uid"]`; `parse_request` catches it and appends the
generic failure events. -/
theorem C4_handler_exception_caught_witness :
    parse_request (constBackend (PyValue.bool true)) L0 "set_device_state" (pyDict []) =
      [] ++ exception_events L0 "set_device_state" (pyDict []) (PyErr.keyError "uid")
    ∧ (exception_events L0 "set_device_state" (pyDict []) (PyErr.keyError "uid")).countP
        isDialogEv = 1 :=
  C4_handler_exception_caught (constBackend (PyValue.bool true)) L0 "set_device_state"
    (pyDict []) _set_device_state [] (PyErr.keyError "uid") rfl rfl

/-- C5: `apply_to_all` with `{type: "brightness", value: 50}` issues, for
every device of the current list whose `available` flag is `True`, exactly
one `set_device_state` call per zone — request name `"brightness"`, no
colour, params `[50]` — and no call for a device whose flag is `False`. -/
theorem C5_apply_to_all_brightness (B : Backend) (L : Locales)
    (h : ∀ d ∈ B.device_list,
      d.available = PyValue.bool true ∨ d.available = PyValue.bool false) :
    _apply_to_all B L (pyDict [("type", PyValue.str "brightness"), ("value", PyValue.int 50)]) =
      (Event.getDeviceListCall ::
        (B.device_list.filter (fun d => d.available == PyValue.bool true)).flatMap
          (fun d => d.zones.map (fun z =>
            Event.setStateCall d.uid (PyValue.str "brightness") z PyValue.none
              (pyList [PyValue.int 50]))),
       Option.none) := by
  have hx : _apply_to_all B L
        (pyDict [("type", PyValue.str "brightness"), ("value", PyValue.int 50)])
      = (Event.getDeviceListCall ::
          (apply_devices (PyValue.str "brightness") (PyValue.int 50) B.device_list).1,
         (apply_devices (PyValue.str "brightness") (PyValue.int 50) B.device_list).2) := rfl
  rw [hx,
    apply_devices_ok (PyValue.str "brightness") (PyValue.int 50)
      (fun d => d.zones.map (fun z =>
        Event.setStateCall d.uid (PyValue.str "brightness") z PyValue.none
          (pyList [PyValue.int 50])))
      (fun d => apply_zones_brightness (PyValue.int 50) d.uid d.zones) B.device_list,
    filter_avail_of_boolean B.device_list h]

/-- C5 (witness): a two-device list — one available with two zones, one
unavailable with one zone — yields exactly two brightness calls, both for
the available device. -/
theorem C5_apply_to_all_brightness_witness :
    _apply_to_all B2 L0 (pyDict [("type", PyValue.str "brightness"), ("value", PyValue.int 50)]) =
      ([Event.getDeviceListCall,
        Event.setStateCall (PyValue.int 0) (PyValue.str "brightness") (PyValue.str "main")
          PyValue.none (pyList [PyValue.int 50]),
        Event.setStateCall (PyValue.int 0) (PyValue.str "brightness") (PyValue.str "logo")
          PyValue.none (pyList [PyValue.int 50])],
       Option.none) :=
  (C5_apply_to_all_brightness B2 L0 (by decide)).trans rfl

/-- C6: `apply_to_all` with `{type: "effect"}`: value `"wave"` issues one
`set_device_state` call per zone of every available device with params
`[1]`, value `"spectrum"` with params `[None]`, per the fixed
default-parameter table; a value outside the table raises `KeyError` at the
table lookup (reached at the first zone of the first available device),
which escapes the handler and is caught by the router's outer exception
boundary. -/
theorem C6_apply_to_all_effect (B : Backend) (L : Locales)
    (h : ∀ d ∈ B.device_list,
      d.available = PyValue.bool true ∨ d.available = PyValue.bool false) :
    (_apply_to_all B L (pyDict [("type", PyValue.str "effect"), ("value", PyValue.str "wave")]) =
      (Event.getDeviceListCall ::
        (B.device_list.filter (fun d => d.available == PyValue.bool true)).flatMap
          (fun d => d.zones.map (fun z =>
            Event.setStateCall d.uid (PyValue.str "wave") z PyValue.none
              (pyList [PyValue.int 1]))),
       Option.none))
    ∧ (_apply_to_all B L
        (pyDict [("type", PyValue.str "effect"), ("value", PyValue.str "spectrum")]) =
      (Event.getDeviceListCall ::
        (B.device_list.filter (fun d => d.available == PyValue.bool true)).flatMap
          (fun d => d.zones.map (fun z =>
            Event.setStateCall d.uid (PyValue.str "spectrum") z PyValue.none
              (pyList [PyValue.none]))),
       Option.none))
    ∧ ∀ v : String, v ∉ ["spectrum", "wave", "reactive", "breath_single", "static"] →
        ∀ (d : Device) (rest : List Device), B.device_list = d :: rest →
          d.available = PyValue.bool true → d.zones ≠ [] →
          _apply_to_all B L (pyDict [("type", PyValue.str "effect"), ("value", PyValue.str v)]) =
              ([Event.getDeviceListCall], Option.some (PyErr.keyError v))
            ∧ parse_request B L "apply_to_all"
                (pyDict [("type", PyValue.str "effect"), ("value", PyValue.str v)]) =
              [Event.getDeviceListCall]
                ++ exception_events L "apply_to_all"
                    (pyDict [("type", PyValue.str "effect"), ("value", PyValue.str v)])
                    (PyErr.keyError v) := by
  refine ⟨?_, ?_, ?_⟩
  · have hx : _apply_to_all B L
          (pyDict [("type", PyValue.str "effect"), ("value", PyValue.str "wave")])
        = (Event.getDeviceListCall ::
            (apply_devices (PyValue.str "effect") (PyValue.str "wave") B.device_list).1,
           (apply_devices (PyValue.str "effect") (PyValue.str "wave") B.device_list).2) := rfl
    rw [hx,
      apply_devices_ok (PyValue.str "effect") (PyValue.str "wave")
        (fun d => d.zones.map (fun z =>
          Event.setStateCall d.uid (PyValue.str "wave") z PyValue.none (pyList [PyValue.int 1])))
        (fun d => apply_zones_effect (PyValue.str "wave") (PyValue.int 1) d.uid
          effect_params_wave d.zones) B.device_list,
      filter_avail_of_boolean B.device_list h]
  · have hx : _apply_to_all B L
          (pyDict [("type", PyValue.str "effect"), ("value", PyValue.str "spectrum")])
        = (Event.getDeviceListCall ::
            (apply_devices (PyValue.str "effect") (PyValue.str "spectrum") B.device_list).1,
           (apply_devices (PyValue.str "effect") (PyValue.str "spectrum") B.device_list).2) := rfl
    rw [hx,
      apply_devices_ok (PyValue.str "effect") (PyValue.str "spectrum")
        (fun d => d.zones.map (fun z =>
          Event.setStateCall d.uid (PyValue.str "spectrum") z PyValue.none
            (pyList [PyValue.none])))
        (fun d => apply_zones_effect (PyValue.str "spectrum") PyValue.none d.uid
          effect_params_spectrum d.zones) B.device_list,
      filter_avail_of_boolean B.device_list h]
  · intro v hv d rest hdl ha hz
    have hmiss := effect_params_miss v hv
    obtain ⟨z0, zs0, hz0⟩ := List.exists_cons_of_ne_nil hz
    have hskip : pyEq d.available (PyValue.bool false) = false := by rw [ha]; rfl
    have hzz : apply_zones (PyValue.str "effect") (PyValue.str v) d.uid d.zones
        = ([], Option.some (PyErr.keyError v)) := by
      rw [hz0]
      exact apply_zones_effect_miss (PyValue.str v) d.uid (PyErr.keyError v) hmiss z0 zs0
    have hdev : apply_devices (PyValue.str "effect") (PyValue.str v) (d :: rest)
        = ([], Option.some (PyErr.keyError v)) := by
      simp [apply_devices, hskip, hzz]
    have hx : _apply_to_all B L
          (pyDict [("type", PyValue.str "effect"), ("value", PyValue.str v)])
        = (Event.getDeviceListCall ::
            (apply_devices (PyValue.str "effect") (PyValue.str v) B.device_list).1,
           (apply_devices (PyValue.str "effect") (PyValue.str v) B.device_list).2) := rfl
    have hmain : _apply_to_all B L
          (pyDict [("type", PyValue.str "effect"), ("value", PyValue.str v)])
        = ([Event.getDeviceListCall], Option.some (PyErr.keyError v)) := by
      rw [hx, hdl, hdev]
    refine ⟨hmain, ?_⟩
    have hl : requests_table.lookup "apply_to_all" = Option.some _apply_to_all := rfl
    simp [parse_request, hl, hmain]

/-- C6 (witness): on the two-device list, `wave` yields params `[1]` and
`spectrum` params `[None]` for both zones of the available device, and the
unknown effect name `"flash"` escapes as `KeyError` and is caught by
`parse_request`, which appends the generic failure events. -/
theorem C6_apply_to_all_effect_witness :
    (_apply_to_all B2 L0 (pyDict [("type", PyValue.str "effect"), ("value", PyValue.str "wave")]) =
      ([Event.getDeviceListCall,
        Event.setStateCall (PyValue.int 0) (PyValue.str "wave") (PyValue.str "main")
          PyValue.none (pyList [PyValue.int 1]),
        Event.setStateCall (PyValue.int 0) (PyValue.str "wave") (PyValue.str "logo")
          PyValue.none (pyList [PyValue.int 1])], Option.none))
    ∧ (_apply_to_all B2 L0
        (pyDict [("type", PyValue.str "effect"), ("value", PyValue.str "spectrum")]) =
      ([Event.getDeviceListCall,
        Event.setStateCall (PyValue.int 0) (PyValue.str "spectrum") (PyValue.str "main")
          PyValue.none (pyList [PyValue.none]),
        Event.setStateCall (PyValue.int 0) (PyValue.str "spectrum") (PyValue.str "logo")
          PyValue.none (pyList [PyValue.none])], Option.none))
    ∧ (_apply_to_all B2 L0
          (pyDict [("type", PyValue.str "effect"), ("value", PyValue.str "flash")]) =
        ([Event.getDeviceListCall], Option.some (PyErr.keyError "flash"))
      ∧ parse_request B2 L0 "apply_to_all"
          (pyDict [("type", PyValue.str "effect"), ("value", PyValue.str "flash")]) =
        [Event.getDeviceListCall]
          ++ exception_events L0 "apply_to_all"
              (pyDict [("type", PyValue.str "effect"), ("value", PyValue.str "flash")])
              (PyErr.keyError "flash")) :=
  ⟨((C6_apply_to_all_effect B2 L0 (by decide)).1).trans rfl,
   ((C6_apply_to_all_effect B2 L0 (by decide)).2.1).trans rfl,
   (C6_apply_to_all_effect B2 L0 (by decide)).2.2 "flash" (by decide)
     { uid := PyValue.int 0, available := PyValue.bool true,
       zones := [PyValue.str "main", PyValue.str "logo"] }
     [{ uid := PyValue.int 1, available := PyValue.bool false, zones := [PyValue.str "main"] }]
     rfl rfl (by decide)⟩

/-- C7: `set_device_state` with a backend return of `False` emits the
processing log, the backend call, the "Invalid request." warning log and
exactly the bad-request warning dialog — no success log and no other UI
action. -/
theorem C7_set_device_state_false (B : Backend) (L : Locales) (u : Int)
    (bk rq z ch pm : PyValue)
    (h : B.set_device_state (PyValue.int u) rq z ch pm = PyValue.bool false) :
    _set_device_state B L (sdsPayload u bk rq z ch pm) =
      ([Event.log ("Processing request '" ++ pyStr rq ++ "' for device " ++ toString u
          ++ " in backend '" ++ pyStr bk ++ "'...") LogLevel.action,
        Event.setStateCall (PyValue.int u) rq z ch pm,
        Event.log "Invalid request." LogLevel.warning,
        internal_error L.error_bad_request_title L.error_bad_request_text "warning"],
       Option.none) := by
  have hx : _set_device_state B L (sdsPayload u bk rq z ch pm)
      = (sds_classify L
          [Event.log ("Processing request '" ++ pyStr rq ++ "' for device " ++ toString u
              ++ " in backend '" ++ pyStr bk ++ "'...") LogLevel.action,
           Event.setStateCall (PyValue.int u) rq z ch pm]
          (B.set_device_state (PyValue.int u) rq z ch pm), Option.none) := rfl
  rw [hx, h]
  rfl

/-- C7 (witness): the bad-request case evaluated at a concrete payload. -/
theorem C7_set_device_state_false_witness :
    _set_device_state (constBackend (PyValue.bool false)) L0
        (sdsPayload 3 (PyValue.str "openrazer") (PyValue.str "wave") (PyValue.str "main")
          PyValue.none (pyList [PyValue.int 1])) =
      ([Event.log ("Processing request '" ++ pyStr (PyValue.str "wave") ++ "' for device "
          ++ toString (3 : Int) ++ " in backend '" ++ pyStr (PyValue.str "openrazer") ++ "'...")
          LogLevel.action,
        Event.setStateCall (PyValue.int 3) (PyValue.str "wave") (PyValue.str "main")
          PyValue.none (pyList [PyValue.int 1]),
        Event.log "Invalid request." LogLevel.warning,
        internal_error L0.error_bad_request_title L0.error_bad_request_text "warning"],
       Option.none) :=
  C7_set_device_state_false (constBackend (PyValue.bool false)) L0 3 (PyValue.str "openrazer")
    (PyValue.str "wave") (PyValue.str "main") PyValue.none (pyList [PyValue.int 1]) rfl

/-- C8: `set_device_state` with a backend return of a string emits a
serious-severity dialog whose message is the backend-error text followed by
that exact string between `<pre>` and `</pre>`, plus an error log of the
string — one dialog and no other UI action. (The string is assumed free of
newline characters, which `_internal_error` would rewrite to `<br>`.) -/
theorem C8_set_device_state_string (B : Backend) (L : Locales) (u : Int)
    (bk rq z ch pm : PyValue) (s : String)
    (h : B.set_device_state (PyValue.int u) rq z ch pm = PyValue.str s)
    (hs : ∀ c ∈ s.data, c ≠ '\n') :
    _set_device_state B L (sdsPayload u bk rq z ch pm) =
      ([Event.log ("Processing request '" ++ pyStr rq ++ "' for device " ++ toString u
          ++ " in backend '" ++ pyStr bk ++ "'...") LogLevel.action,
        Event.setStateCall (PyValue.int u) rq z ch pm,
        Event.dialog L.error_backend_title
          (replaceNewlines L.error_backend_text ++ "<pre>" ++ s ++ "</pre>") "serious",
        Event.log s LogLevel.error],
       Option.none) := by
  have hx : _set_device_state B L (sdsPayload u bk rq z ch pm)
      = (sds_classify L
          [Event.log ("Processing request '" ++ pyStr rq ++ "' for device " ++ toString u
              ++ " in backend '" ++ pyStr bk ++ "'...") LogLevel.action,
           Event.setStateCall (PyValue.int u) rq z ch pm]
          (B.set_device_state (PyValue.int u) rq z ch pm), Option.none) := rfl
  have hmsg : replaceNewlines (L.error_backend_text ++ "<pre>" ++ s ++ "</pre>")
      = replaceNewlines L.error_backend_text ++ "<pre>" ++ s ++ "</pre>" := by
    rw [replaceNewlines_append, replaceNewlines_append, replaceNewlines_append,
      replaceNewlines_id s hs]
    rfl
  rw [hx, h, sds_classify_str, hmsg]
  rfl

/-- C8 (witness): the daemon-exception case evaluated at a concrete
payload with message "Device timed out". -/
theorem C8_set_device_state_string_witness :
    _set_device_state (constBackend (PyValue.str "Device timed out")) L0
        (sdsPayload 3 (PyValue.str "openrazer") (PyValue.str "wave") (PyValue.str "main")
          PyValue.none (pyList [PyValue.int 1])) =
      ([Event.log ("Processing request '" ++ pyStr (PyValue.str "wave") ++ "' for device "
          ++ toString (3 : Int) ++ " in backend '" ++ pyStr (PyValue.str "openrazer") ++ "'...")
          LogLevel.action,
        Event.setStateCall (PyValue.int 3) (PyValue.str "wave") (PyValue.str "main")
          PyValue.none (pyList [PyValue.int 1]),
        Event.dialog L0.error_backend_title
          (replaceNewlines L0.error_backend_text ++ "<pre>" ++ "Device timed out" ++ "</pre>")
          "serious",
        Event.log "Device timed out" LogLevel.error],
       Option.none) :=
  C8_set_device_state_string (constBackend (PyValue.str "Device timed out")) L0 3
    (PyValue.str "openrazer") (PyValue.str "wave") (PyValue.str "main") PyValue.none
    (pyList [PyValue.int 1]) "Device timed out" rfl (by decide)

/-- C9: `apply_to_all` with a `type` value equal to none of `"effect"`,
`"brightness"` and `"colour"` completes silently for every payload value:
the device list is fetched, but no state-mutation or colour call is issued,
no dialog is raised and no exception escapes. -/
theorem C9_apply_to_all_unknown_type (B : Backend) (L : Locales) (t v : PyValue)
    (h1 : pyEq t (PyValue.str "effect") = false)
    (h2 : pyEq t (PyValue.str "brightness") = false)
    (h3 : pyEq t (PyValue.str "colour") = false) :
    _apply_to_all B L (pyDict [("type", t), ("value", v)]) =
      ([Event.getDeviceListCall], Option.none) := by
  have hx : _apply_to_all B L (pyDict [("type", t), ("value", v)])
      = (Event.getDeviceListCall :: (apply_devices t v B.device_list).1,
         (apply_devices t v B.device_list).2) := rfl
  rw [hx, apply_devices_other t v h1 h2 h3 B.device_list]

/-- C9 (witness): the unknown type `"sparkle"` on the two-device list
issues no backend mutation and no dialog. -/
theorem C9_apply_to_all_unknown_type_witness :
    _apply_to_all B2 L0 (pyDict [("type", PyValue.str "sparkle"), ("value", PyValue.int 7)]) =
      ([Event.getDeviceListCall], Option.none) :=
  C9_apply_to_all_unknown_type B2 L0 (PyValue.str "sparkle") (PyValue.int 7) rfl rfl rfl

/-- C10: `set_device_state` classifies the backend return with Python
`==`, under which `0 == False` and `1 == True`: an integer 0 return takes
the bad-request branch (warning dialog, no success log) exactly as `False`
does, and an integer 1 return takes the success branch (success log, no
dialog) exactly as `True` does. -/
theorem C10_int_sentinels_by_equality (B : Backend) (L : Locales) (u : Int)
    (bk rq z ch pm : PyValue) :
    (B.set_device_state (PyValue.int u) rq z ch pm = PyValue.int 0 →
      _set_device_state B L (sdsPayload u bk rq z ch pm) =
        ([Event.log ("Processing request '" ++ pyStr rq ++ "' for device " ++ toString u
            ++ " in backend '" ++ pyStr bk ++ "'...") LogLevel.action,
          Event.setStateCall (PyValue.int u) rq z ch pm,
          Event.log "Invalid request." LogLevel.warning,
          internal_error L.error_bad_request_title L.error_bad_request_text "warning"],
         Option.none))
    ∧ (B.set_device_state (PyValue.int u) rq z ch pm = PyValue.int 1 →
      _set_device_state B L (sdsPayload u bk rq z ch pm) =
        ([Event.log ("Processing request '" ++ pyStr rq ++ "' for device " ++ toString u
            ++ " in backend '" ++ pyStr bk ++ "'...") LogLevel.action,
          Event.setStateCall (PyValue.int u) rq z ch pm,
          Event.log "Successfully executed request" LogLevel.success],
         Option.none)) := by
  have hx : _set_device_state B L (sdsPayload u bk rq z ch pm)
      = (sds_classify L
          [Event.log ("Processing request '" ++ pyStr rq ++ "' for device " ++ toString u
              ++ " in backend '" ++ pyStr bk ++ "'...") LogLevel.action,
           Event.setStateCall (PyValue.int u) rq z ch pm]
          (B.set_device_state (PyValue.int u) rq z ch pm), Option.none) := rfl
  refine ⟨fun h => ?_, fun h => ?_⟩ <;> rw [hx, h] <;> rfl

/-- C10 (witness): both integer sentinels evaluated at a concrete
payload. -/
theorem C10_int_sentinels_by_equality_witness :
    _set_device_state (constBackend (PyValue.int 0)) L0
        (sdsPayload 3 (PyValue.str "openrazer") (PyValue.str "wave") (PyValue.str "main")
          PyValue.none (pyList [PyValue.int 1])) =
      ([Event.log ("Processing request '" ++ pyStr (PyValue.str "wave") ++ "' for device "
          ++ toString (3 : Int) ++ " in backend '" ++ pyStr (PyValue.str "openrazer") ++ "'...")
          LogLevel.action,
        Event.setStateCall (PyValue.int 3) (PyValue.str "wave") (PyValue.str "main")
          PyValue.none (pyList [PyValue.int 1]),
        Event.log "Invalid request." LogLevel.warning,
        internal_error L0.error_bad_request_title L0.error_bad_request_text "warning"],
       Option.none)
    ∧ _set_device_state (constBackend (PyValue.int 1)) L0
        (sdsPayload 3 (PyValue.str "openrazer") (PyValue.str "wave") (PyValue.str "main")
          PyValue.none (pyList [PyValue.int 1])) =
      ([Event.log ("Processing request '" ++ pyStr (PyValue.str "wave") ++ "' for device "
          ++ toString (3 : Int) ++ " in backend '" ++ pyStr (PyValue.str "openrazer") ++ "'...")
          LogLevel.action,
        Event.setStateCall (PyValue.int 3) (PyValue.str "wave") (PyValue.str "main")
          PyValue.none (pyList [PyValue.int 1]),
        Event.log "Successfully executed request" LogLevel.success],
       Option.none) :=
  ⟨(C10_int_sentinels_by_equality (constBackend (PyValue.int 0)) L0 3 (PyValue.str "openrazer")
      (PyValue.str "wave") (PyValue.str "main") PyValue.none (pyList [PyValue.int 1])).1 rfl,
   (C10_int_sentinels_by_equality (constBackend (PyValue.int 1)) L0 3 (PyValue.str "openrazer")
      (PyValue.str "wave") (PyValue.str "main") PyValue.none (pyList [PyValue.int 1])).2 rfl⟩
